import Mathlib

/-!
Verification of the Tilck VFS dispatch layer (`vfs.c`) against its
natural-language specification.

The dispatch functions (`vfs_open`, `vfs_dup`, `vfs_read`, `vfs_write`,
`vfs_seek`, `vfs_mkdir`, `vfs_rmdir`, `vfs_unlink`,
`vfs_get_new_device_id`) are shallowly embedded as pure Lean functions.
External collaborators that the C source consumes but does not define here
(the mount registry `get_retained_fs_at`, the resolver `vfs_resolve`, and
each driver's operation tables) are passed in as parameters, exactly at the
interface boundary the spec gives for them.  Each embedded operation
returns, besides its C return value, an instrumentation record: how many
mount-registry lookups, resolver calls and driver calls it performed, how
many filesystem retains/releases it executed, and which handle-lock mode it
held around the driver call.  These counters correspond one-to-one to the
calls visible in the C source.
-/

namespace Tilck

/-! ## Flag and error constants (Linux generic ABI values used by Tilck) -/

def O_WRONLY : Nat := 0o1

def O_RDWR : Nat := 0o2

def O_ASYNC : Nat := 0o20000

def O_TMPFILE : Nat := 0o20200000

def O_CLOEXEC : Nat := 0o2000000

def FD_CLOEXEC : Nat := 1

def VFS_FS_RW : Nat := 1

def SEEK_SET : Int := 0

def SEEK_CUR : Int := 1

def SEEK_END : Int := 2

def EPERM : Int := 1

def ENOENT : Int := 2

def EBADF : Int := 9

def EINVAL : Int := 22

def ENOTTY : Int := 25

def ESPIPE : Int := 29

def EROFS : Int := 30

def EOPNOTSUPP : Int := 95

/-! ## Data model -/

/-- Opaque resolved-path object produced by the resolver (`vfs_path` in C).
Its contents are driver-specific; we model it as an opaque wrapper. -/
structure VfsPath where
  tag : Nat

/-- The handle-lock modes supported by `vfs_shlock` / `vfs_exlock`. -/
inductive LockMode where
  | shared
  | excl
deriving DecidableEq

/-- The per-handle state of `fs_handle_base` together with the
driver-supplied data-operation table (`hb->fops`).  Driver data operations
are abstracted as functions of their non-handle arguments returning the
C return value; a missing capability is `none` (a NULL function pointer). -/
structure HandleCore where
  fl_flags : Nat
  fd_flags : Nat
  fops_read : Option (Nat → Int)
  fops_write : Option (Nat → Int)
  fops_seek : Option (Int → Int → Int)
  fops_ioctl : Option (Nat → Int)
  fops_fcntl : Option (Nat → Nat → Int)

/-- A mounted filesystem instance (`filesystem` in C): its flag word and its
driver operation table (`fs->fsops`).  `open` and `dup` are mandatory
capabilities; `mkdir`, `rmdir`, `unlink` are optional (NULL-able pointers).
The driver ops mirror the C calling convention: `fsops_open` and `fsops_dup`
return the `int` result together with the out-parameter handle, which the
dispatch layer reads only when the result is 0. -/
structure Filesystem where
  flags : Nat
  fsops_open : VfsPath → Nat → Nat → Int × HandleCore
  fsops_dup : HandleCore → Int × HandleCore
  fsops_mkdir : Option (VfsPath → Nat → Int)
  fsops_rmdir : Option (VfsPath → Int)
  fsops_unlink : Option (VfsPath → Int)

/-- An open handle: the `fs_handle_base` state plus the back-reference to
the owning filesystem (`hb->fs`). -/
structure Handle where
  core : HandleCore
  fs : Filesystem

/-- The external collaborators consumed by the dispatch layer:
`get_retained_fs_at` (mount-registry lookup, which retains the filesystem
on success and yields the filesystem-relative remainder of the path) and
`vfs_resolve` (the resolver, returning an `int` code and filling a
`vfs_path`; the dispatch layer uses the path only when the code is 0). -/
structure Env where
  getRetainedFsAt : String → Option (Filesystem × String)
  resolve : Filesystem → String → Int × VfsPath

/-! ## Instrumented results -/

/-- Result of `vfs_mkdir` / `vfs_rmdir` / `vfs_unlink`: the C return value
plus counters of resolver calls, driver calls, filesystem retains
(performed by `get_retained_fs_at`) and releases (`release_obj`). -/
structure PathOpResult where
  rc : Int
  resolverCalls : Nat
  driverCalls : Nat
  retains : Nat
  releases : Nat

/-- Result of `vfs_open`: return value, the out-parameter handle (set only
on success), and counters of mount-registry lookups, resolver calls, driver
calls, retains and releases. -/
structure OpenResult where
  rc : Int
  out : Option Handle
  lookups : Nat
  resolverCalls : Nat
  driverCalls : Nat
  retains : Nat
  releases : Nat

/-- Result of `vfs_dup`: return value, the duplicated handle (on success),
and how many times the owning filesystem was retained for it. -/
structure DupResult where
  rc : Int
  dup_h : Option Handle
  fsRetains : Nat

/-- Result of a handle-based data operation (`vfs_read`, `vfs_write`,
`vfs_seek`): the C return value, whether the driver operation was invoked,
and the handle-lock mode held around that invocation (`none` when the
operation returned before taking the lock). -/
structure DataOpResult where
  ret : Int
  driverInvoked : Bool
  lockMode : Option LockMode

/-! ## The dispatch operations, translated from `vfs.c` -/

/-- Translation of `vfs_open`: rejects `O_ASYNC` (-EINVAL) and `O_TMPFILE` (-EOPNOTSUPP)
before any lookup; then looks up and retains the filesystem (-ENOENT when
no mount matches); under the fs lock resolves the path and calls the
driver's `open`; on success stamps `fl_flags` with the caller's flags and
sets `FD_CLOEXEC` in `fd_flags` when `O_CLOEXEC` was requested, keeping the
retained reference for the handle; on failure releases the reference. -/
def vfs_open (env : Env) (path : String) (flags : Nat) (mode : Nat) :
    OpenResult :=
  if flags &&& O_ASYNC ≠ 0 then
    ⟨-EINVAL, none, 0, 0, 0, 0, 0⟩
  else if flags &&& O_TMPFILE = O_TMPFILE then
    ⟨-EOPNOTSUPP, none, 0, 0, 0, 0, 0⟩
  else
    match env.getRetainedFsAt path with
    | none => ⟨-ENOENT, none, 1, 0, 0, 0, 0⟩
    | some (fs, fs_path) =>
      let r := env.resolve fs fs_path
      if r.1 = 0 then
        let dr := fs.fsops_open r.2 flags mode
        if dr.1 = 0 then
          let h0 := dr.2
          let h1 : HandleCore := { h0 with fl_flags := flags }
          let h2 : HandleCore :=
            if flags &&& O_CLOEXEC ≠ 0 then
              { h1 with fd_flags := h1.fd_flags ||| FD_CLOEXEC }
            else h1
          ⟨0, some ⟨h2, fs⟩, 1, 1, 1, 1, 0⟩
        else
          ⟨dr.1, none, 1, 1, 1, 1, 1⟩
      else
        ⟨r.1, none, 1, 1, 0, 1, 1⟩

/-- Translation of `vfs_dup`: calls the driver's `dup`; a nonzero driver result is passed
through unchanged; on success clears the new handle's `fd_flags` and
retains the owning filesystem once more for the new handle. -/
def vfs_dup (h : Handle) : DupResult :=
  let dr := h.fs.fsops_dup h.core
  if dr.1 ≠ 0 then
    ⟨dr.1, none, 0⟩
  else
    ⟨0, some ⟨{ dr.2 with fd_flags := 0 }, h.fs⟩, 1⟩

/-- Translation of `vfs_read`: -EBADF when the driver has no `read` or the handle was
opened write-only (`O_WRONLY` set and `O_RDWR` clear); otherwise invokes
the driver's `read` under the handle lock in shared mode. -/
def vfs_read (h : Handle) (buf_size : Nat) : DataOpResult :=
  match h.core.fops_read with
  | none => ⟨-EBADF, false, none⟩
  | some f =>
    if h.core.fl_flags &&& O_WRONLY ≠ 0 ∧ h.core.fl_flags &&& O_RDWR = 0 then
      ⟨-EBADF, false, none⟩
    else
      ⟨f buf_size, true, some LockMode.shared⟩

/-- Translation of `vfs_write`: -EBADF when the driver has no `write` or the open-mode
flags contain neither `O_WRONLY` nor `O_RDWR`; otherwise invokes the
driver's `write` under the handle lock in exclusive mode. -/
def vfs_write (h : Handle) (buf_size : Nat) : DataOpResult :=
  match h.core.fops_write with
  | none => ⟨-EBADF, false, none⟩
  | some f =>
    if h.core.fl_flags &&& (O_WRONLY ||| O_RDWR) = 0 then
      ⟨-EBADF, false, none⟩
    else
      ⟨f buf_size, true, some LockMode.excl⟩

/-- Translation of `vfs_seek`: -EINVAL for a whence outside SEEK_SET/SEEK_CUR/SEEK_END,
-ESPIPE when the driver has no `seek`; otherwise invokes the driver's
`seek` under the handle lock in shared mode. -/
def vfs_seek (h : Handle) (off : Int) (whence : Int) : DataOpResult :=
  if whence ≠ SEEK_SET ∧ whence ≠ SEEK_CUR ∧ whence ≠ SEEK_END then
    ⟨-EINVAL, false, none⟩
  else
    match h.core.fops_seek with
    | none => ⟨-ESPIPE, false, none⟩
    | some f => ⟨f off whence, true, some LockMode.shared⟩

/-- Translation of `vfs_mkdir`: looks up and retains the filesystem (-ENOENT on no mount);
returns -EROFS when the mount lacks `VFS_FS_RW` and -EPERM when the driver
has no `mkdir` capability — both early returns happen before any resolver
or driver call and, as in the C source, without releasing the retained
reference; otherwise resolves and calls the driver's `mkdir` under the fs
lock and releases the reference before returning. -/
def vfs_mkdir (env : Env) (path : String) (mode : Nat) : PathOpResult :=
  match env.getRetainedFsAt path with
  | none => ⟨-ENOENT, 0, 0, 0, 0⟩
  | some (fs, fs_path) =>
    if fs.flags &&& VFS_FS_RW = 0 then
      ⟨-EROFS, 0, 0, 1, 0⟩
    else
      match fs.fsops_mkdir with
      | none => ⟨-EPERM, 0, 0, 1, 0⟩
      | some drv =>
        let r := env.resolve fs fs_path
        if r.1 = 0 then
          ⟨drv r.2 mode, 1, 1, 1, 1⟩
        else
          ⟨r.1, 1, 0, 1, 1⟩

/-- Translation of `vfs_rmdir`: same structure as `vfs_mkdir` (missing capability gives
-EPERM), calling the driver's `rmdir`. -/
def vfs_rmdir (env : Env) (path : String) : PathOpResult :=
  match env.getRetainedFsAt path with
  | none => ⟨-ENOENT, 0, 0, 0, 0⟩
  | some (fs, fs_path) =>
    if fs.flags &&& VFS_FS_RW = 0 then
      ⟨-EROFS, 0, 0, 1, 0⟩
    else
      match fs.fsops_rmdir with
      | none => ⟨-EPERM, 0, 0, 1, 0⟩
      | some drv =>
        let r := env.resolve fs fs_path
        if r.1 = 0 then
          ⟨drv r.2, 1, 1, 1, 1⟩
        else
          ⟨r.1, 1, 0, 1, 1⟩

/-- Translation of `vfs_unlink`: same structure as `vfs_mkdir`, except that a missing
`unlink` capability gives -EROFS (not -EPERM), as in the C source. -/
def vfs_unlink (env : Env) (path : String) : PathOpResult :=
  match env.getRetainedFsAt path with
  | none => ⟨-ENOENT, 0, 0, 0, 0⟩
  | some (fs, fs_path) =>
    if fs.flags &&& VFS_FS_RW = 0 then
      ⟨-EROFS, 0, 0, 1, 0⟩
    else
      match fs.fsops_unlink with
      | none => ⟨-EROFS, 0, 0, 1, 0⟩
      | some drv =>
        let r := env.resolve fs fs_path
        if r.1 = 0 then
          ⟨drv r.2, 1, 1, 1, 1⟩
        else
          ⟨r.1, 1, 0, 1, 1⟩

/-- Translation of `vfs_get_new_device_id`: `return next_device_id++` on a `u32` counter.
Takes the current counter value and returns the handed-out identifier
together with the new counter value (wrapping at 2^32 as a `u32` does). -/
def vfs_get_new_device_id (next_device_id : Nat) : Nat × Nat :=
  (next_device_id, (next_device_id + 1) % 2 ^ 32)

/-- Counter value before the n-th call (counting from 0) of
`vfs_get_new_device_id`, starting from the static initial value 0. -/
def next_device_id_after : Nat → Nat
  | 0 => 0
  | n + 1 => (vfs_get_new_device_id (next_device_id_after n)).2

/-- Identifier returned by the n-th call (counting from 0). -/
def device_id_call (n : Nat) : Nat :=
  (vfs_get_new_device_id (next_device_id_after n)).1

/-! ## Handle-lock model

`vfs_read` and `vfs_seek` wrap the driver call in `vfs_shlock`/`vfs_shunlock`
(shared mode); `vfs_write` wraps it in `vfs_exlock`/`vfs_exunlock`
(exclusive mode).  The lock itself is modelled by its admission rule: a new
holder may enter only when its mode is compatible with every current
holder, shared with shared being the only compatible pair. -/

/-- Compatibility of two holders of the same handle lock. -/
def lockCompat : LockMode → LockMode → Bool
  | LockMode.shared, LockMode.shared => true
  | _, _ => false

/-- A context may acquire the lock in mode `m` iff `m` is compatible with
every mode currently held. -/
def canAcquire (held : List LockMode) (m : LockMode) : Bool :=
  held.all fun x => lockCompat x m

/-- The states (multisets of concurrently held modes, as lists) reachable
on one handle lock: starting from no holders, a context may enter when
`canAcquire` admits it and any holder may leave. -/
inductive LockReach : List LockMode → Prop where
  | nil : LockReach []
  | acquire (m : LockMode) (held : List LockMode) :
      LockReach held → canAcquire held m = true → LockReach (m :: held)
  | leave (m : LockMode) (pre post : List LockMode) :
      LockReach (pre ++ m :: post) → LockReach (pre ++ post)

/-! ## Concrete instances used as witnesses -/

/-- A concrete resolved path. -/
def demoVfsPath : VfsPath := ⟨0⟩

/-- A handle-core whose driver supports read, write and seek; opened
read-write. -/
def demoCore : HandleCore :=
  ⟨O_RDWR, 0,
   some fun n => (n : Int),
   some fun n => (n : Int),
   some fun off _ => off,
   none, none⟩

/-- A handle-core whose driver supports no data operation. -/
def noopsCore : HandleCore := ⟨O_RDWR, 0, none, none, none, none, none⟩

/-- A read-write filesystem with the full structural capability set. -/
def demoFs : Filesystem :=
  ⟨VFS_FS_RW,
   fun _ _ _ => (0, demoCore),
   fun c => (0, c),
   some fun _ _ => 0,
   some fun _ => 0,
   some fun _ => 0⟩

/-- The same driver mounted read-only (`VFS_FS_RW` clear). -/
def roFs : Filesystem :=
  ⟨0,
   fun _ _ _ => (0, demoCore),
   fun c => (0, c),
   some fun _ _ => 0,
   some fun _ => 0,
   some fun _ => 0⟩

/-- A read-write mount whose driver omits mkdir, rmdir and unlink. -/
def noCapFs : Filesystem :=
  ⟨VFS_FS_RW,
   fun _ _ _ => (0, demoCore),
   fun c => (0, c),
   none, none, none⟩

/-- A handle on `demoFs` with full data capabilities. -/
def demoHandle : Handle := ⟨demoCore, demoFs⟩

/-- A handle on `demoFs` with no data capabilities. -/
def noopsHandle : Handle := ⟨noopsCore, demoFs⟩

/-- A handle opened write-only (`O_WRONLY`, no `O_RDWR`). -/
def wrOnlyHandle : Handle := ⟨{ demoCore with fl_flags := O_WRONLY }, demoFs⟩

/-- A handle whose descriptor flags are nonzero, to exercise dup's reset. -/
def cloexecHandle : Handle :=
  ⟨{ demoCore with fd_flags := FD_CLOEXEC }, demoFs⟩

/-- Environment whose mount registry finds `demoFs` and whose resolver
succeeds. -/
def demoEnvRW : Env := ⟨fun _ => some (demoFs, "a"), fun _ _ => (0, demoVfsPath)⟩

/-- Environment whose mount registry finds the read-only `roFs`. -/
def demoEnvRO : Env := ⟨fun _ => some (roFs, "a"), fun _ _ => (0, demoVfsPath)⟩

/-- Environment whose mount registry finds the capability-less `noCapFs`. -/
def demoEnvNoCap : Env :=
  ⟨fun _ => some (noCapFs, "a"), fun _ _ => (0, demoVfsPath)⟩

/-- The guard under which `vfs_read` refuses with -EBADF before taking the
lock: no driver `read`, or opened write-only. -/
def read_rejected (h : Handle) : Prop :=
  h.core.fops_read = none ∨
  (h.core.fl_flags &&& O_WRONLY ≠ 0 ∧ h.core.fl_flags &&& O_RDWR = 0)

/-- The guard under which `vfs_write` refuses with -EBADF before taking the
lock: no driver `write`, or neither `O_WRONLY` nor `O_RDWR` in the
open-mode flags. -/
def write_rejected (h : Handle) : Prop :=
  h.core.fops_write = none ∨ h.core.fl_flags &&& (O_WRONLY ||| O_RDWR) = 0

/-! ## Helper lemmas -/

/-- Oring a mask in sets every bit of the mask. -/
theorem or_and_absorb (x y : Nat) : (x ||| y) &&& y = y := by
  apply Nat.eq_of_testBit_eq
  intro i
  simp only [Nat.testBit_or, Nat.testBit_and]
  cases x.testBit i <;> cases y.testBit i <;> simp

/-- Before the n-th call the counter holds exactly `n`, as long as the
`u32` has not wrapped. -/
theorem next_device_id_after_eq (n : Nat) (h : n < 2 ^ 32) :
    next_device_id_after n = n := by
  induction n with
  | zero => rfl
  | succ k ih =>
    have hk : k < 2 ^ 32 := Nat.lt_of_succ_lt h
    show ((next_device_id_after k) + 1) % 2 ^ 32 = k + 1
    rw [ih hk]
    exact Nat.mod_eq_of_lt h

/-- Exclusive acquisition is admitted only when nobody holds the lock. -/
theorem canAcquire_excl_nil {held : List LockMode}
    (h : canAcquire held LockMode.excl = true) : held = [] := by
  cases held with
  | nil => rfl
  | cons a t =>
    exfalso
    cases a <;> simp [canAcquire, lockCompat] at h

/-- Shared acquisition is admitted only when every holder is shared. -/
theorem canAcquire_shared_all {held : List LockMode}
    (h : canAcquire held LockMode.shared = true) :
    ∀ x ∈ held, x = LockMode.shared := by
  intro x hx
  have := List.all_eq_true.mp h x hx
  cases x
  · rfl
  · simp [lockCompat] at this

/-- In every reachable lock state at most one holder is in exclusive
mode. -/
theorem lockReach_excl_count {held : List LockMode} (h : LockReach held) :
    held.count LockMode.excl ≤ 1 := by
  induction h with
  | nil => simp
  | acquire m held hr hc ih =>
    cases m with
    | shared =>
      simpa [List.count_cons] using ih
    | excl =>
      have he : held = [] := canAcquire_excl_nil hc
      subst he
      simp
  | leave m pre post hr ih =>
    have h1 : (pre ++ post).count LockMode.excl ≤
        (pre ++ m :: post).count LockMode.excl := by
      simp only [List.count_append, List.count_cons]
      omega
    omega

/-! ## Claim theorems -/

/-- Claim C2: for every path, mode and flags value containing `O_ASYNC`,
`vfs_open` returns the error the source designates as its
not-supported-yet rejection of async I/O (-EINVAL, at the `TODO: Tilck
does not support ASYNC I/O yet` early return), and it does so before any
mount-registry lookup, retain, or resolver call. -/
theorem vfs_open_async_rejected_early (env : Env) (path : String)
    (flags mode : Nat) (h : flags &&& O_ASYNC ≠ 0) :
    (vfs_open env path flags mode).rc = -EINVAL ∧
    (vfs_open env path flags mode).lookups = 0 ∧
    (vfs_open env path flags mode).retains = 0 ∧
    (vfs_open env path flags mode).resolverCalls = 0 ∧
    (vfs_open env path flags mode).driverCalls = 0 := by
  simp [vfs_open, h]

/-- Witness for C2 at a concrete input: `flags = O_ASYNC`. -/
theorem vfs_open_async_rejected_early_witness :
    (vfs_open demoEnvRW "/a" O_ASYNC 420).rc = -EINVAL ∧
    (vfs_open demoEnvRW "/a" O_ASYNC 420).lookups = 0 ∧
    (vfs_open demoEnvRW "/a" O_ASYNC 420).retains = 0 ∧
    (vfs_open demoEnvRW "/a" O_ASYNC 420).resolverCalls = 0 ∧
    (vfs_open demoEnvRW "/a" O_ASYNC 420).driverCalls = 0 :=
  vfs_open_async_rejected_early demoEnvRW "/a" O_ASYNC 420 (by decide)

/-- Claim C3: when the mount lookup finds a filesystem whose `VFS_FS_RW`
flag is clear, `vfs_mkdir`, `vfs_rmdir` and `vfs_unlink` all return -EROFS
and invoke neither the resolver nor any driver operation. -/
theorem vfs_readonly_mount_enforcement (env : Env) (path : String)
    (mode : Nat) (fs : Filesystem) (rest : String)
    (hl : env.getRetainedFsAt path = some (fs, rest))
    (hro : fs.flags &&& VFS_FS_RW = 0) :
    ((vfs_mkdir env path mode).rc = -EROFS ∧
     (vfs_mkdir env path mode).resolverCalls = 0 ∧
     (vfs_mkdir env path mode).driverCalls = 0) ∧
    ((vfs_rmdir env path).rc = -EROFS ∧
     (vfs_rmdir env path).resolverCalls = 0 ∧
     (vfs_rmdir env path).driverCalls = 0) ∧
    ((vfs_unlink env path).rc = -EROFS ∧
     (vfs_unlink env path).resolverCalls = 0 ∧
     (vfs_unlink env path).driverCalls = 0) := by
  simp [vfs_mkdir, vfs_rmdir, vfs_unlink, hl, hro]

/-- Witness for C3 on the concrete read-only mount. -/
theorem vfs_readonly_mount_enforcement_witness :
    ((vfs_mkdir demoEnvRO "/x" 511).rc = -EROFS ∧
     (vfs_mkdir demoEnvRO "/x" 511).resolverCalls = 0 ∧
     (vfs_mkdir demoEnvRO "/x" 511).driverCalls = 0) ∧
    ((vfs_rmdir demoEnvRO "/x").rc = -EROFS ∧
     (vfs_rmdir demoEnvRO "/x").resolverCalls = 0 ∧
     (vfs_rmdir demoEnvRO "/x").driverCalls = 0) ∧
    ((vfs_unlink demoEnvRO "/x").rc = -EROFS ∧
     (vfs_unlink demoEnvRO "/x").resolverCalls = 0 ∧
     (vfs_unlink demoEnvRO "/x").driverCalls = 0) :=
  vfs_readonly_mount_enforcement demoEnvRO "/x" 511 roFs "a" rfl (by decide)

/-- Claim C4: on a read-write mount whose driver omits the corresponding
capability, `vfs_unlink` returns -EROFS while `vfs_mkdir` and `vfs_rmdir`
return -EPERM, in each case without calling the resolver or the driver. -/
theorem vfs_missing_capability_errors (env : Env) (path : String)
    (mode : Nat) (fs : Filesystem) (rest : String)
    (hl : env.getRetainedFsAt path = some (fs, rest))
    (hrw : fs.flags &&& VFS_FS_RW ≠ 0) :
    (fs.fsops_unlink = none →
      (vfs_unlink env path).rc = -EROFS ∧
      (vfs_unlink env path).resolverCalls = 0 ∧
      (vfs_unlink env path).driverCalls = 0) ∧
    (fs.fsops_mkdir = none →
      (vfs_mkdir env path mode).rc = -EPERM ∧
      (vfs_mkdir env path mode).resolverCalls = 0 ∧
      (vfs_mkdir env path mode).driverCalls = 0) ∧
    (fs.fsops_rmdir = none →
      (vfs_rmdir env path).rc = -EPERM ∧
      (vfs_rmdir env path).resolverCalls = 0 ∧
      (vfs_rmdir env path).driverCalls = 0) := by
  refine ⟨fun hu => ?_, fun hm => ?_, fun hr => ?_⟩
  · simp [vfs_unlink, hl, hrw, hu]
  · simp [vfs_mkdir, hl, hrw, hm]
  · simp [vfs_rmdir, hl, hrw, hr]

/-- Witness for C4 on the concrete capability-less read-write mount. -/
theorem vfs_missing_capability_errors_witness :
    ((vfs_unlink demoEnvNoCap "/x").rc = -EROFS ∧
     (vfs_unlink demoEnvNoCap "/x").resolverCalls = 0 ∧
     (vfs_unlink demoEnvNoCap "/x").driverCalls = 0) ∧
    ((vfs_mkdir demoEnvNoCap "/x" 511).rc = -EPERM ∧
     (vfs_mkdir demoEnvNoCap "/x" 511).resolverCalls = 0 ∧
     (vfs_mkdir demoEnvNoCap "/x" 511).driverCalls = 0) ∧
    ((vfs_rmdir demoEnvNoCap "/x").rc = -EPERM ∧
     (vfs_rmdir demoEnvNoCap "/x").resolverCalls = 0 ∧
     (vfs_rmdir demoEnvNoCap "/x").driverCalls = 0) := by
  have t := vfs_missing_capability_errors demoEnvNoCap "/x" 511 noCapFs "a"
    rfl (by decide)
  exact ⟨t.1 rfl, t.2.1 rfl, t.2.2 rfl⟩

/-- Claim C1: the claim requires every path-based dispatch operation to
release the reference retained by the successful mount lookup exactly once
on every return path.  The source violates this on the read-only-mount and
missing-capability early returns of `vfs_mkdir`, `vfs_rmdir` and
`vfs_unlink`: evaluated there, the operation performed one retain and zero
releases (while on the path reaching the driver it correctly releases
once). -/
theorem vfs_mkdir_unlink_leak_retained_ref :
    ((vfs_mkdir demoEnvRO "/x" 511).rc = -EROFS ∧
     (vfs_mkdir demoEnvRO "/x" 511).retains = 1 ∧
     (vfs_mkdir demoEnvRO "/x" 511).releases = 0) ∧
    ((vfs_unlink demoEnvNoCap "/x").rc = -EROFS ∧
     (vfs_unlink demoEnvNoCap "/x").retains = 1 ∧
     (vfs_unlink demoEnvNoCap "/x").releases = 0) ∧
    ((vfs_rmdir demoEnvNoCap "/x").rc = -EPERM ∧
     (vfs_rmdir demoEnvNoCap "/x").retains = 1 ∧
     (vfs_rmdir demoEnvNoCap "/x").releases = 0) ∧
    ((vfs_mkdir demoEnvRW "/x" 511).retains = 1 ∧
     (vfs_mkdir demoEnvRW "/x" 511).releases = 1) := by
  refine ⟨⟨?_, ?_, ?_⟩, ⟨?_, ?_, ?_⟩, ⟨?_, ?_, ?_⟩, ?_, ?_⟩ <;> rfl

/-- Claim C5: `vfs_dup` passes a nonzero driver result through unchanged
(retaining nothing); on driver success it returns 0, resets the
duplicate's descriptor flags to 0 — so close-on-exec is never inherited —
and retains the owning filesystem exactly once for the new handle. -/
theorem vfs_dup_contract (h : Handle) :
    ((h.fs.fsops_dup h.core).1 ≠ 0 →
      (vfs_dup h).rc = (h.fs.fsops_dup h.core).1 ∧
      (vfs_dup h).dup_h = none ∧
      (vfs_dup h).fsRetains = 0) ∧
    ((h.fs.fsops_dup h.core).1 = 0 →
      (vfs_dup h).rc = 0 ∧
      (vfs_dup h).fsRetains = 1 ∧
      ∃ h2 : Handle, (vfs_dup h).dup_h = some h2 ∧
        h2.core.fd_flags = 0 ∧
        h2.core.fd_flags &&& FD_CLOEXEC = 0) := by
  constructor
  · intro hne
    simp [vfs_dup, hne]
  · intro he
    refine ⟨by simp [vfs_dup, he], by simp [vfs_dup, he],
      ⟨⟨(h.fs.fsops_dup h.core).2.fl_flags, 0,
        (h.fs.fsops_dup h.core).2.fops_read,
        (h.fs.fsops_dup h.core).2.fops_write,
        (h.fs.fsops_dup h.core).2.fops_seek,
        (h.fs.fsops_dup h.core).2.fops_ioctl,
        (h.fs.fsops_dup h.core).2.fops_fcntl⟩, h.fs⟩,
      by simp [vfs_dup, he], rfl, by simp⟩

/-- Witness for C5: duplicating a handle whose descriptor flags have
close-on-exec set yields a duplicate with cleared descriptor flags. -/
theorem vfs_dup_contract_witness :
    (vfs_dup cloexecHandle).rc = 0 ∧
    (vfs_dup cloexecHandle).fsRetains = 1 ∧
    ∃ h2 : Handle, (vfs_dup cloexecHandle).dup_h = some h2 ∧
      h2.core.fd_flags = 0 ∧
      h2.core.fd_flags &&& FD_CLOEXEC = 0 :=
  (vfs_dup_contract cloexecHandle).2 rfl

/-- Claim C6: `vfs_seek` with a whence outside SEEK_SET/SEEK_CUR/SEEK_END
returns -EINVAL without invoking the driver; with a valid whence on a
handle whose driver provides no `seek`, it returns -ESPIPE, again without
invoking any driver operation. -/
theorem vfs_seek_validation (h : Handle) (off w : Int) :
    ((w ≠ SEEK_SET ∧ w ≠ SEEK_CUR ∧ w ≠ SEEK_END) →
      (vfs_seek h off w).ret = -EINVAL ∧
      (vfs_seek h off w).driverInvoked = false) ∧
    ((w = SEEK_SET ∨ w = SEEK_CUR ∨ w = SEEK_END) →
      h.core.fops_seek = none →
      (vfs_seek h off w).ret = -ESPIPE ∧
      (vfs_seek h off w).driverInvoked = false) := by
  constructor
  · intro hw
    simp [vfs_seek, hw]
  · intro hw hn
    have hcond : ¬ (w ≠ SEEK_SET ∧ w ≠ SEEK_CUR ∧ w ≠ SEEK_END) := by
      rcases hw with hw | hw | hw <;> simp [hw]
    simp [vfs_seek, hcond, hn]

/-- Witness for C6: whence 3 gives -EINVAL; SEEK_SET on a driver without
`seek` gives -ESPIPE. -/
theorem vfs_seek_validation_witness :
    ((vfs_seek demoHandle 0 3).ret = -EINVAL ∧
     (vfs_seek demoHandle 0 3).driverInvoked = false) ∧
    ((vfs_seek noopsHandle 0 SEEK_SET).ret = -ESPIPE ∧
     (vfs_seek noopsHandle 0 SEEK_SET).driverInvoked = false) :=
  ⟨(vfs_seek_validation demoHandle 0 3).1 (by decide),
   (vfs_seek_validation noopsHandle 0 SEEK_SET).2 (Or.inl rfl) rfl⟩

/-- Claim C7: whenever `vfs_open` succeeds, the returned handle's
open-mode flags equal exactly the flags argument, and if `O_CLOEXEC` was
among them the `FD_CLOEXEC` bit is set in the handle's descriptor flags. -/
theorem vfs_open_flag_stamping (env : Env) (path : String)
    (flags mode : Nat) (hs : (vfs_open env path flags mode).rc = 0) :
    ∃ h : Handle, (vfs_open env path flags mode).out = some h ∧
      h.core.fl_flags = flags ∧
      (flags &&& O_CLOEXEC ≠ 0 → h.core.fd_flags &&& FD_CLOEXEC ≠ 0) := by
  by_cases h1 : flags &&& O_ASYNC ≠ 0
  · rw [show (vfs_open env path flags mode) =
        ⟨-EINVAL, none, 0, 0, 0, 0, 0⟩ from by simp [vfs_open, h1]] at hs
    exact absurd hs (by decide)
  · by_cases h2 : flags &&& O_TMPFILE = O_TMPFILE
    · rw [show (vfs_open env path flags mode) =
          ⟨-EOPNOTSUPP, none, 0, 0, 0, 0, 0⟩ from by
        simp [vfs_open, h1, h2]] at hs
      exact absurd hs (by decide)
    · cases hl : env.getRetainedFsAt path with
      | none =>
        rw [show (vfs_open env path flags mode) =
            ⟨-ENOENT, none, 1, 0, 0, 0, 0⟩ from by
          simp [vfs_open, h1, h2, hl]] at hs
        exact absurd hs (by decide)
      | some pr =>
        obtain ⟨fs, fs_path⟩ := pr
        by_cases h3 : (env.resolve fs fs_path).1 = 0
        · by_cases h4 : (fs.fsops_open (env.resolve fs fs_path).2 flags mode).1 = 0
          · by_cases h5 : flags &&& O_CLOEXEC ≠ 0
            · refine ⟨⟨{ (fs.fsops_open (env.resolve fs fs_path).2 flags mode).2
                    with
                    fl_flags := flags,
                    fd_flags :=
                      (fs.fsops_open (env.resolve fs fs_path).2
                        flags mode).2.fd_flags ||| FD_CLOEXEC }, fs⟩,
                ?_, rfl, ?_⟩
              · simp [vfs_open, h1, h2, hl, h3, h4, h5]
              · intro _
                show ¬ (_ ||| FD_CLOEXEC) &&& FD_CLOEXEC = 0
                rw [or_and_absorb]
                decide
            · refine ⟨⟨{ (fs.fsops_open (env.resolve fs fs_path).2 flags mode).2
                    with fl_flags := flags }, fs⟩, ?_, rfl, ?_⟩
              · simp [vfs_open, h1, h2, hl, h3, h4, h5]
              · intro hc
                exact absurd hc h5
          · rw [show (vfs_open env path flags mode) =
                ⟨(fs.fsops_open (env.resolve fs fs_path).2 flags mode).1,
                 none, 1, 1, 1, 1, 1⟩ from by
              simp [vfs_open, h1, h2, hl, h3, h4]] at hs
            exact absurd hs h4
        · rw [show (vfs_open env path flags mode) =
              ⟨(env.resolve fs fs_path).1, none, 1, 1, 0, 1, 1⟩ from by
            simp [vfs_open, h1, h2, hl, h3]] at hs
          exact absurd hs h3

/-- Witness for C7: a successful open with `O_RDWR ||| O_CLOEXEC`. -/
theorem vfs_open_flag_stamping_witness :
    ∃ h : Handle,
      (vfs_open demoEnvRW "/a" (O_RDWR ||| O_CLOEXEC) 420).out = some h ∧
      h.core.fl_flags = O_RDWR ||| O_CLOEXEC ∧
      ((O_RDWR ||| O_CLOEXEC) &&& O_CLOEXEC ≠ 0 →
        h.core.fd_flags &&& FD_CLOEXEC ≠ 0) :=
  vfs_open_flag_stamping demoEnvRW "/a" (O_RDWR ||| O_CLOEXEC) 420 rfl

/-- Claim C8: `vfs_read` returns -EBADF with the driver not invoked exactly
when the driver lacks `read` or the open-mode flags have `O_WRONLY` set
with `O_RDWR` clear (so both set remains readable); `vfs_write` returns
-EBADF with the driver not invoked exactly when the driver lacks `write`
or neither `O_WRONLY` nor `O_RDWR` is set; otherwise each invokes the
driver and returns its result unchanged. -/
theorem vfs_read_write_badf_characterization (h : Handle) (n : Nat) :
    (((vfs_read h n).ret = -EBADF ∧ (vfs_read h n).driverInvoked = false) ↔
      read_rejected h) ∧
    (¬ read_rejected h → (vfs_read h n).driverInvoked = true ∧
      ∀ f, h.core.fops_read = some f → (vfs_read h n).ret = f n) ∧
    (((vfs_write h n).ret = -EBADF ∧ (vfs_write h n).driverInvoked = false) ↔
      write_rejected h) ∧
    (¬ write_rejected h → (vfs_write h n).driverInvoked = true ∧
      ∀ f, h.core.fops_write = some f → (vfs_write h n).ret = f n) := by
  refine ⟨?_, ?_, ?_, ?_⟩
  · cases hr : h.core.fops_read with
    | none => simp [vfs_read, hr, read_rejected]
    | some f =>
      by_cases hm : h.core.fl_flags &&& O_WRONLY ≠ 0 ∧
          h.core.fl_flags &&& O_RDWR = 0
      · simp [vfs_read, hr, hm, read_rejected]
      · simp [vfs_read, hr, hm, read_rejected]
  · intro hnr
    cases hr : h.core.fops_read with
    | none => exact absurd (Or.inl hr) hnr
    | some f =>
      have hm : ¬ (h.core.fl_flags &&& O_WRONLY ≠ 0 ∧
          h.core.fl_flags &&& O_RDWR = 0) := fun hc => hnr (Or.inr hc)
      constructor
      · simp [vfs_read, hr, hm]
      · intro g hg
        have hfg : f = g := Option.some.inj hg
        subst hfg
        simp [vfs_read, hr, hm]
  · cases hw : h.core.fops_write with
    | none => simp [vfs_write, hw, write_rejected]
    | some f =>
      by_cases hm : h.core.fl_flags &&& (O_WRONLY ||| O_RDWR) = 0
      · simp [vfs_write, hw, hm, write_rejected]
      · simp [vfs_write, hw, hm, write_rejected]
  · intro hnw
    cases hw : h.core.fops_write with
    | none => exact absurd (Or.inl hw) hnw
    | some f =>
      have hm : ¬ h.core.fl_flags &&& (O_WRONLY ||| O_RDWR) = 0 :=
        fun hc => hnw (Or.inr hc)
      constructor
      · simp [vfs_write, hw, hm]
      · intro g hg
        have hfg : f = g := Option.some.inj hg
        subst hfg
        simp [vfs_write, hw, hm]

/-- Witness for C8: the read-write `demoHandle` reaches its driver and
gets the driver's result back; the capability-less handle and the
write-only handle are refused with -EBADF without driver invocation. -/
theorem vfs_read_write_badf_characterization_witness :
    ((vfs_read demoHandle 5).driverInvoked = true ∧
     (vfs_read demoHandle 5).ret = 5) ∧
    ((vfs_read noopsHandle 5).ret = -EBADF ∧
     (vfs_read noopsHandle 5).driverInvoked = false) ∧
    ((vfs_write wrOnlyHandle 7).driverInvoked = true ∧
     (vfs_write wrOnlyHandle 7).ret = 7) := by
  have hnr : ¬ read_rejected demoHandle := by
    simp [read_rejected, demoHandle, demoCore, O_RDWR, O_WRONLY]
  have hrj : read_rejected noopsHandle := Or.inl rfl
  have hnw : ¬ write_rejected wrOnlyHandle := by
    simp [write_rejected, wrOnlyHandle, demoCore, O_RDWR, O_WRONLY]
  have t1 := (vfs_read_write_badf_characterization demoHandle 5).2.1 hnr
  have t2 := (vfs_read_write_badf_characterization noopsHandle 5).1.mpr hrj
  have t3 := (vfs_read_write_badf_characterization wrOnlyHandle 7).2.2.2 hnw
  exact ⟨⟨t1.1, t1.2 _ rfl⟩, t2, ⟨t3.1, t3.2 _ rfl⟩⟩

/-- Claim C9: the device-identifier allocator is a single counter starting
at 0; the n-th call of `vfs_get_new_device_id` (counting from 0) returns n,
and successive calls return strictly increasing identifiers with no reuse
(within the `u32` range, which the spec exempts from wraparound
handling). -/
theorem vfs_device_id_allocator (n : Nat) (h : n < 2 ^ 32) :
    device_id_call n = n ∧
    ∀ m : Nat, m < n → device_id_call m < device_id_call n := by
  have hcall : ∀ k : Nat, k < 2 ^ 32 → device_id_call k = k := by
    intro k hk
    show (vfs_get_new_device_id (next_device_id_after k)).1 = k
    show next_device_id_after k = k
    exact next_device_id_after_eq k hk
  refine ⟨hcall n h, ?_⟩
  intro m hm
  rw [hcall n h, hcall m (lt_trans hm h)]
  exact hm

/-- Witness for C9: the fourth call returns 3 and exceeds the third
call's identifier. -/
theorem vfs_device_id_allocator_witness :
    device_id_call 3 = 3 ∧ device_id_call 2 < device_id_call 3 := by
  have t := vfs_device_id_allocator 3 (by norm_num)
  exact ⟨t.1, t.2 2 (by norm_num)⟩

/-- Claim C10: whenever `vfs_write` reaches the driver it holds the handle
lock in exclusive mode, while `vfs_read` and `vfs_seek` hold it in shared
mode; under the lock's admission rule (a mode may be acquired only when
compatible with every current holder, shared/shared being the only
compatible pair) every reachable state has at most one exclusive holder —
so two writes can never overlap inside the driver — while a shared
acquisition is admitted when another shared holder is present, so
concurrent reads and seeks proceed without blocking each other. -/
theorem vfs_handle_lock_discipline :
    (∀ (h : Handle) (n : Nat), (vfs_write h n).driverInvoked = true →
      (vfs_write h n).lockMode = some LockMode.excl) ∧
    (∀ (h : Handle) (n : Nat), (vfs_read h n).driverInvoked = true →
      (vfs_read h n).lockMode = some LockMode.shared) ∧
    (∀ (h : Handle) (off w : Int), (vfs_seek h off w).driverInvoked = true →
      (vfs_seek h off w).lockMode = some LockMode.shared) ∧
    (∀ held : List LockMode, LockReach held →
      held.count LockMode.excl ≤ 1) ∧
    canAcquire [LockMode.shared] LockMode.shared = true ∧
    lockCompat LockMode.excl LockMode.excl = false := by
  refine ⟨?_, ?_, ?_, fun held hr => lockReach_excl_count hr, rfl, rfl⟩
  · intro h n
    cases hw : h.core.fops_write with
    | none => simp [vfs_write, hw]
    | some f =>
      by_cases hm : h.core.fl_flags &&& (O_WRONLY ||| O_RDWR) = 0
      · simp [vfs_write, hw, hm]
      · simp [vfs_write, hw, hm]
  · intro h n
    cases hr : h.core.fops_read with
    | none => simp [vfs_read, hr]
    | some f =>
      by_cases hm : h.core.fl_flags &&& O_WRONLY ≠ 0 ∧
          h.core.fl_flags &&& O_RDWR = 0
      · simp [vfs_read, hr, hm]
      · simp [vfs_read, hr, hm]
  · intro h off w
    by_cases hw : w ≠ SEEK_SET ∧ w ≠ SEEK_CUR ∧ w ≠ SEEK_END
    · simp [vfs_seek, hw]
    · cases hs : h.core.fops_seek with
      | none => simp [vfs_seek, hw, hs]
      | some f => simp [vfs_seek, hw, hs]

/-- Witness for C10: the concrete read-write handle holds the exclusive
mode around its driver write and the shared mode around read and seek; the
state with one exclusive holder is reachable and has one exclusive
holder. -/
theorem vfs_handle_lock_discipline_witness :
    (vfs_write demoHandle 1).lockMode = some LockMode.excl ∧
    (vfs_read demoHandle 1).lockMode = some LockMode.shared ∧
    (vfs_seek demoHandle 0 SEEK_SET).lockMode = some LockMode.shared ∧
    [LockMode.excl].count LockMode.excl ≤ 1 := by
  have t := vfs_handle_lock_discipline
  exact ⟨t.1 demoHandle 1 (by decide),
    t.2.1 demoHandle 1 (by decide),
    t.2.2.1 demoHandle 0 SEEK_SET (by decide),
    t.2.2.2.1 [LockMode.excl]
      (LockReach.acquire LockMode.excl [] LockReach.nil rfl)⟩

end Tilck
